import Mathlib

/-!
Shallow embedding of `sample_scripts/condo_logic/main.py`: a three-stage
LightBox API pipeline (address geocoding, parcel lookup, assessment lookup)
plus an assertion-based validation harness.  HTTP is modelled by an abstract
transport `Http : Request → Response`; each resolver returns the list of
requests it issues together with the raw response, so that request traces
and raw-response passing are provable facts.
-/

/-- A JSON value, as carried in HTTP response bodies. -/
inductive Json where
  | null : Json
  | str (s : String) : Json
  | num (n : Int) : Json
  | bool (b : Bool) : Json
  | arr (elems : List Json) : Json
  | obj (fields : List (String × Json)) : Json

/-- An HTTP request as assembled by `requests.get(URL, params=..., headers=...)`. -/
structure Request where
  method : String
  url : String
  params : List (String × String)
  headers : List (String × String)
deriving DecidableEq

/-- The raw HTTP response object returned by `requests.get`: a status code
plus the JSON body that `.json()` parses. -/
structure Response where
  status_code : Nat
  body : Json

/-- The external HTTP transport: what the LightBox service answers to each
request.  The script itself is deterministic given this transport. -/
def Http : Type := Request → Response

/-- Dictionary access `j[k]` on a parsed JSON value: defined only on objects
holding the key (Python raises `KeyError`/`TypeError` otherwise). -/
def Json.getObj : Json → String → Option Json
  | Json.obj fields, k => List.lookup k fields
  | _, _ => none

/-- List indexing `j[i]` on a parsed JSON value: defined only on arrays long
enough (Python raises `IndexError`/`TypeError` otherwise). -/
def Json.getIdx : Json → Nat → Option Json
  | Json.arr elems, i => elems.get? i
  | _, _ => none

/-- A JSON value used where the script expects a string field. -/
def Json.asStr : Json → Option String
  | Json.str s => some s
  | _ => none

/-- Base URL constant `BASE_URL` shared by every resolver in `main.py`. -/
def BASE_URL : String := "https://api.lightboxre.com/v1"

/-- The request assembled by `geocode_address`:
GET BASE_URL + "/addresses/search" with `params={"text": address}` and
`headers={"x-api-key": lightbox_api_key}`. -/
def geocode_request (lightbox_api_key : String) (address : String) : Request :=
  { method := "GET"
  , url := BASE_URL ++ "/addresses/search"
  , params := [("text", address)]
  , headers := [("x-api-key", lightbox_api_key)] }

/-- Embeds `geocode_address` from `main.py`: sends one GET request to the
address-search endpoint and returns the raw response.  The first component
is the list of requests the call issues. -/
def geocode_address (http : Http) (lightbox_api_key : String) (address : String) :
    List Request × Response :=
  let req := geocode_request lightbox_api_key address
  ([req], http req)

/-- The request assembled by `get_parcel_data_from_address_coordinates`:
GET BASE_URL + "/parcels/" + country_code + "/geometry" with
`params={"wkt": address_coordinates}` and the `x-api-key` header. -/
def parcel_geometry_request (lightbox_api_key country_code address_coordinates : String) :
    Request :=
  { method := "GET"
  , url := BASE_URL ++ "/parcels/" ++ country_code ++ "/geometry"
  , params := [("wkt", address_coordinates)]
  , headers := [("x-api-key", lightbox_api_key)] }

/-- Embeds `get_parcel_data_from_address_coordinates` from `main.py`
(Parcel Resolver, geometry variant A). -/
def get_parcel_data_from_address_coordinates (http : Http)
    (lightbox_api_key country_code address_coordinates : String) :
    List Request × Response :=
  let req := parcel_geometry_request lightbox_api_key country_code address_coordinates
  ([req], http req)

/-- Modelled from the spec: the identifier-based Parcel Resolver (variant B)
lives in the second file variant of this repository, which is not among the
provided sources; only the spec describes it.  Per the spec it issues
GET "/parcels/_on/address/" followed by the country and the service-assigned
address identifier, with the API key in the `x-api-key` header. -/
def parcel_on_address_request (lightbox_api_key country_code address_id : String) :
    Request :=
  { method := "GET"
  , url := BASE_URL ++ "/parcels/_on/address/" ++ country_code ++ "/" ++ address_id
  , params := []
  , headers := [("x-api-key", lightbox_api_key)] }

/-- Modelled from the spec: variant B of the Parcel Resolver, issuing one
GET request to the identifier-based endpoint and returning the raw response. -/
def get_parcel_from_lbx_address_id (http : Http)
    (lightbox_api_key country_code address_id : String) :
    List Request × Response :=
  let req := parcel_on_address_request lightbox_api_key country_code address_id
  ([req], http req)

/-- The request assembled by `get_assessment_data_from_lbx_parcel_id`:
GET BASE_URL + "/assessments/_on/parcel/us/" + lbx_parcel_id with only the
`x-api-key` header (no query parameters). -/
def assessment_request (lightbox_api_key lbx_parcel_id : String) : Request :=
  { method := "GET"
  , url := BASE_URL ++ "/assessments/_on/parcel/us/" ++ lbx_parcel_id
  , params := []
  , headers := [("x-api-key", lightbox_api_key)] }

/-- Embeds `get_assessment_data_from_lbx_parcel_id` from `main.py`
(Assessment Resolver). -/
def get_assessment_data_from_lbx_parcel_id (http : Http)
    (lightbox_api_key lbx_parcel_id : String) :
    List Request × Response :=
  let req := assessment_request lightbox_api_key lbx_parcel_id
  ([req], http req)

/-- The chained extraction
`.json()["addresses"][0]["location"]["representativePoint"]["geometry"]["wkt"]`
performed on geocode responses: partial, `none` when any step fails
(the Python program dies with `KeyError`/`IndexError`/`TypeError` there). -/
def extract_wkt (j : Json) : Option String :=
  j.getObj "addresses" >>= fun a =>
  a.getIdx 0 >>= fun e =>
  e.getObj "location" >>= fun l =>
  l.getObj "representativePoint" >>= fun r =>
  r.getObj "geometry" >>= fun g =>
  g.getObj "wkt" >>= Json.asStr

/-- The chained extraction `.json()["parcels"][0]["id"]` performed on parcel
responses: partial, `none` when any step fails. -/
def extract_parcel_id (j : Json) : Option String :=
  j.getObj "parcels" >>= fun p =>
  p.getIdx 0 >>= fun e =>
  e.getObj "id" >>= Json.asStr

/-- Runs a sequence of assertion checks: each check issues its request and
asserts the expected status code; a failed assertion raises and terminates
the script, so no later request is issued.  Returns the requests actually
issued and whether every assertion passed. -/
def run_checks (http : Http) : List (Request × Nat) → List Request × Bool
  | [] => ([], true)
  | (req, expected) :: rest =>
    if (http req).status_code = expected then
      let result := run_checks http rest
      (req :: result.1, result.2)
    else
      ([req], false)

/-- The known-good full address used throughout `main.py`. -/
def valid_address : String := "25482 Buckwood Land Forest, Ca, 92630"

/-- The deliberately incomplete address (street only) of the 404 check. -/
def incomplete_address : String := "25482 Buckwood Land Forest"

/-- The assertion checks of `test_geocode_address_response_status`, in
source order: (request issued, expected status code). -/
def geocode_checks (lightbox_api_key : String) : List (Request × Nat) :=
  [ (geocode_request lightbox_api_key valid_address, 200)
  , (geocode_request lightbox_api_key "", 400)
  , (geocode_request "My-LightBox-Key" valid_address, 401)
  , (geocode_request lightbox_api_key incomplete_address, 404) ]

/-- Embeds `test_geocode_address_response_status` from `main.py`. -/
def test_geocode_address_response_status (http : Http) (lightbox_api_key : String) :
    List Request × Bool :=
  run_checks http (geocode_checks lightbox_api_key)

/-- The assertion checks of `test_get_parcel_data_from_address_coordinates`,
in source order, given the coordinates extracted from the geocode response.
The 401 check reuses the reassigned coordinates "foobar". -/
def parcel_checks (lightbox_api_key address_coordinates : String) : List (Request × Nat) :=
  [ (parcel_geometry_request lightbox_api_key "us" address_coordinates, 200)
  , (parcel_geometry_request lightbox_api_key "us" "foobar", 400)
  , (parcel_geometry_request (lightbox_api_key ++ "foobar") "us" "foobar", 401) ]

/-- Embeds `test_get_parcel_data_from_address_coordinates` from `main.py`:
first an unasserted geocode call whose response feeds the coordinate
extraction (a crash there yields `none`), then the assertion checks. -/
def test_get_parcel_data_from_address_coordinates (http : Http)
    (lightbox_api_key : String) : List Request × Option Bool :=
  let geo_req := geocode_request lightbox_api_key valid_address
  match extract_wkt (http geo_req).body with
  | none => ([geo_req], none)
  | some address_coordinates =>
    let result := run_checks http (parcel_checks lightbox_api_key address_coordinates)
    (geo_req :: result.1, some result.2)

/-- The assertion checks of `test_get_assessment_data_from_lbx_parcel_id`,
in source order, given the parcel id extracted from the parcel response.
The 401 check reuses the reassigned parcel id "1234567890". -/
def assessment_checks (lightbox_api_key lbx_parcel_id : String) : List (Request × Nat) :=
  [ (assessment_request lightbox_api_key lbx_parcel_id, 200)
  , (assessment_request lightbox_api_key "1234567890", 400)
  , (assessment_request (lightbox_api_key ++ "foobar") "1234567890", 401) ]

/-- Embeds `test_get_assessment_data_from_lbx_parcel_id` from `main.py`:
unasserted geocode and parcel calls feed the extractions (a crash yields
`none`), then the assertion checks. -/
def test_get_assessment_data_from_lbx_parcel_id (http : Http)
    (lightbox_api_key : String) : List Request × Option Bool :=
  let geo_req := geocode_request lightbox_api_key valid_address
  match extract_wkt (http geo_req).body with
  | none => ([geo_req], none)
  | some address_coordinates =>
    let par_req := parcel_geometry_request lightbox_api_key "us" address_coordinates
    match extract_parcel_id (http par_req).body with
    | none => ([geo_req, par_req], none)
    | some lbx_parcel_id =>
      let result := run_checks http (assessment_checks lightbox_api_key lbx_parcel_id)
      (geo_req :: par_req :: result.1, some result.2)

/-- Module-level credential of `main.py`: assigned the empty string, the only
way a key enters the script. -/
def lightbox_api_key : String := ""

/-- Module-level address constant of `main.py`. -/
def address : String := "25482 Buckwood Land Forest, Ca, 92630"

/-- Module-level country code constant of `main.py`. -/
def country_code : String := "us"

/-- Embeds the module-level pipeline of `main.py`: geocode the address, feed
the extracted WKT point to the parcel resolver, feed the extracted parcel id
to the assessment resolver.  `none` models the script dying on a failed
extraction; otherwise the three raw responses are returned with the full
request trace. -/
def run_pipeline (http : Http) :
    List Request × Option (Response × Response × Response) :=
  let g := geocode_address http lightbox_api_key address
  match extract_wkt g.2.body with
  | none => (g.1, none)
  | some wkt =>
    let p := get_parcel_data_from_address_coordinates http lightbox_api_key country_code wkt
    match extract_parcel_id p.2.body with
    | none => (g.1 ++ p.1, none)
    | some pid =>
      let a := get_assessment_data_from_lbx_parcel_id http lightbox_api_key pid
      (g.1 ++ p.1 ++ a.1, some (g.2, p.2, a.2))

/-- Embeds the print section of `main.py`: the JSON documents written to
standard output, in order.  The script prints exactly the three stage bodies
(each via `json.dumps(..., indent=4)`); if the pipeline died earlier nothing
is printed (`none`). -/
def program_output (http : Http) : Option (List Json) :=
  match (run_pipeline http).2 with
  | none => none
  | some (g, p, a) => some [g.body, p.body, a.body]

/-- A concrete WKT point, standing for the representative point the live
service returns for the sample address. -/
def sample_wkt : String := "POINT(-117.689 33.646)"

/-- A concrete parcel identifier, standing for the live service's parcel id. -/
def sample_parcel_id : String := "0200MWN95F"

/-- A geocode response body shaped as the script expects:
`addresses[0].location.representativePoint.geometry.wkt`. -/
def sample_geocode_body : Json :=
  Json.obj [("addresses", Json.arr [Json.obj [("location", Json.obj
    [("representativePoint", Json.obj [("geometry", Json.obj
      [("wkt", Json.str sample_wkt)])])])]])]

/-- A parcel response body shaped as the script expects: `parcels[0].id`. -/
def sample_parcel_body : Json :=
  Json.obj [("parcels", Json.arr [Json.obj [("id", Json.str sample_parcel_id)]])]

/-- An opaque assessment response body. -/
def sample_assessment_body : Json :=
  Json.obj [("assessments", Json.arr [Json.obj [("taxAmount", Json.num 1234)]])]

/-- A deterministic transport answering every request of the script the way
the status-code contract describes: well-formed bodies and status 200 for
the valid chained inputs, 400 for empty or malformed input, 401 for the
corrupted credentials, 404 for the incomplete address. -/
def mock_http : Http := fun req =>
  if req = geocode_request "" valid_address then
    { status_code := 200, body := sample_geocode_body }
  else if req = geocode_request "" "" then
    { status_code := 400, body := Json.null }
  else if req = geocode_request "My-LightBox-Key" valid_address then
    { status_code := 401, body := Json.null }
  else if req = geocode_request "" incomplete_address then
    { status_code := 404, body := Json.null }
  else if req = parcel_geometry_request "" "us" sample_wkt then
    { status_code := 200, body := sample_parcel_body }
  else if req = parcel_geometry_request "" "us" "foobar" then
    { status_code := 400, body := Json.null }
  else if req = parcel_geometry_request "foobar" "us" "foobar" then
    { status_code := 401, body := Json.null }
  else if req = assessment_request "" sample_parcel_id then
    { status_code := 200, body := sample_assessment_body }
  else if req = assessment_request "" "1234567890" then
    { status_code := 400, body := Json.null }
  else if req = assessment_request "foobar" "1234567890" then
    { status_code := 401, body := Json.null }
  else
    { status_code := 500, body := Json.null }

/-- A transport on which the geocode succeeds (status 200) but the candidate
list `addresses` is empty: the no-match case the script never guards. -/
def mock_http_no_match : Http := fun _ =>
  { status_code := 200, body := Json.obj [("addresses", Json.arr [])] }

/-- A transport on which geocoding yields a usable point but the parcel
response's `parcels` list is empty. -/
def mock_http_no_parcels : Http := fun req =>
  if req = geocode_request "" valid_address then
    { status_code := 200, body := sample_geocode_body }
  else
    { status_code := 200, body := Json.obj [("parcels", Json.arr [])] }

/-- Claim C1: the pipeline is strictly linear with no branching, retry, or
parallelism: the run issues exactly three requests in order — geocode, then
parcel keyed by the WKT extracted from
`addresses[0].location.representativePoint.geometry.wkt` of the geocode
response, then assessment keyed by `parcels[0].id` of the parcel response —
and each stage's sole data input from the program is the previous stage's
output. -/
theorem C1_pipeline_linear (http : Http) (wkt pid : String)
    (hw : extract_wkt (http (geocode_request lightbox_api_key address)).body = some wkt)
    (hp : extract_parcel_id
      (http (parcel_geometry_request lightbox_api_key country_code wkt)).body = some pid) :
    run_pipeline http =
      ([geocode_request lightbox_api_key address,
        parcel_geometry_request lightbox_api_key country_code wkt,
        assessment_request lightbox_api_key pid],
       some (http (geocode_request lightbox_api_key address),
             http (parcel_geometry_request lightbox_api_key country_code wkt),
             http (assessment_request lightbox_api_key pid))) := by
  unfold run_pipeline geocode_address get_parcel_data_from_address_coordinates
    get_assessment_data_from_lbx_parcel_id
  simp only [hw, hp]
  rfl

/-- Witness for C1: on the mock transport the hypotheses hold and the
pipeline issues exactly the three chained requests. -/
theorem C1_pipeline_linear_witness :
    extract_wkt (mock_http (geocode_request lightbox_api_key address)).body = some sample_wkt ∧
    extract_parcel_id
      (mock_http (parcel_geometry_request lightbox_api_key country_code sample_wkt)).body =
      some sample_parcel_id ∧
    run_pipeline mock_http =
      ([geocode_request lightbox_api_key address,
        parcel_geometry_request lightbox_api_key country_code sample_wkt,
        assessment_request lightbox_api_key sample_parcel_id],
       some (mock_http (geocode_request lightbox_api_key address),
             mock_http (parcel_geometry_request lightbox_api_key country_code sample_wkt),
             mock_http (assessment_request lightbox_api_key sample_parcel_id))) :=
  ⟨rfl, rfl, C1_pipeline_linear mock_http sample_wkt sample_parcel_id rfl rfl⟩

/-- Claim C4: the Parcel Resolver has two variants: variant A queries
GET /parcels/<country>/geometry with the WKT as the `wkt` query parameter,
variant B queries GET /parcels/_on/address/<country>/<address_id>; both
carry the API key in the `x-api-key` header and return the raw response. -/
theorem C4_parcel_two_variants (http : Http) (key country coords addr_id : String) :
    get_parcel_data_from_address_coordinates http key country coords =
      ([{ method := "GET"
        , url := "https://api.lightboxre.com/v1/parcels/" ++ country ++ "/geometry"
        , params := [("wkt", coords)]
        , headers := [("x-api-key", key)] }],
       http (parcel_geometry_request key country coords)) ∧
    get_parcel_from_lbx_address_id http key country addr_id =
      ([{ method := "GET"
        , url := "https://api.lightboxre.com/v1/parcels/_on/address/" ++ country
            ++ "/" ++ addr_id
        , params := []
        , headers := [("x-api-key", key)] }],
       http (parcel_on_address_request key country addr_id)) :=
  ⟨rfl, rfl⟩

/-- Claim C5: for every API key and every address string the Address
Resolver issues exactly one GET request to /addresses/search with the
address as the `text` query parameter and the key as the `x-api-key`
header, and returns the transport's response unmodified. -/
theorem C5_geocode_single_request (http : Http) (key addr : String) :
    geocode_address http key addr =
      ([{ method := "GET"
        , url := "https://api.lightboxre.com/v1/addresses/search"
        , params := [("text", addr)]
        , headers := [("x-api-key", key)] }],
       http (geocode_request key addr)) ∧
    (geocode_address http key addr).1.length = 1 :=
  ⟨rfl, rfl⟩

/-- Claim C6: for every API key and parcel identifier the Assessment
Resolver's path is /assessments/_on/parcel/us/<parcel_id> — the country
segment is the fixed constant "us" — and the only data sent besides the
path is the `x-api-key` header; there are no query parameters. -/
theorem C6_assessment_fixed_country (http : Http) (key pid : String) :
    get_assessment_data_from_lbx_parcel_id http key pid =
      ([{ method := "GET"
        , url := "https://api.lightboxre.com/v1/assessments/_on/parcel/us/" ++ pid
        , params := []
        , headers := [("x-api-key", key)] }],
       http (assessment_request key pid)) ∧
    (assessment_request key pid).params = [] :=
  ⟨rfl, rfl⟩

/-- Claim C9: each resolver hands back the raw response object coming from
the transport — the pair of status code and unparsed JSON body — not a
parsed dictionary; callers reach the JSON payload through the response's
`body` (the `.json()` call) themselves. -/
theorem C9_raw_response_interface (http : Http) (key addr country coords pid : String) :
    (geocode_address http key addr).2 = http (geocode_request key addr) ∧
    (get_parcel_data_from_address_coordinates http key country coords).2 =
      http (parcel_geometry_request key country coords) ∧
    (get_assessment_data_from_lbx_parcel_id http key pid).2 =
      http (assessment_request key pid) ∧
    (geocode_address http key addr).2.status_code =
      (http (geocode_request key addr)).status_code ∧
    (geocode_address http key addr).2.body = (http (geocode_request key addr)).body :=
  ⟨rfl, rfl, rfl, rfl, rfl⟩

/-- Claim C2: the Address Resolver harness checks exactly this status-code
contract, in source order, halting on the first failed assertion: valid full
address with the given credential expects 200, empty address expects 400,
the invalid credential "My-LightBox-Key" expects 401, the incomplete
street-only address expects 404.  The trace equation shows both the exact
requests checked and that a failed assertion stops the harness. -/
theorem C2_geocode_harness (http : Http) (key : String) :
    test_geocode_address_response_status http key =
      (if (http (geocode_request key valid_address)).status_code = 200 then
        if (http (geocode_request key "")).status_code = 400 then
          if (http (geocode_request "My-LightBox-Key" valid_address)).status_code = 401 then
            if (http (geocode_request key incomplete_address)).status_code = 404 then
              ([geocode_request key valid_address, geocode_request key "",
                geocode_request "My-LightBox-Key" valid_address,
                geocode_request key incomplete_address], true)
            else
              ([geocode_request key valid_address, geocode_request key "",
                geocode_request "My-LightBox-Key" valid_address,
                geocode_request key incomplete_address], false)
          else
            ([geocode_request key valid_address, geocode_request key "",
              geocode_request "My-LightBox-Key" valid_address], false)
        else
          ([geocode_request key valid_address, geocode_request key ""], false)
      else
        ([geocode_request key valid_address], false)) ∧
    ((test_geocode_address_response_status http key).2 = true ↔
      ((http (geocode_request key valid_address)).status_code = 200 ∧
       (http (geocode_request key "")).status_code = 400 ∧
       (http (geocode_request "My-LightBox-Key" valid_address)).status_code = 401 ∧
       (http (geocode_request key incomplete_address)).status_code = 404)) := by
  by_cases h1 : (http (geocode_request key valid_address)).status_code = 200 <;>
  by_cases h2 : (http (geocode_request key "")).status_code = 400 <;>
  by_cases h3 : (http (geocode_request "My-LightBox-Key" valid_address)).status_code = 401 <;>
  by_cases h4 : (http (geocode_request key incomplete_address)).status_code = 404 <;>
  simp [test_geocode_address_response_status, geocode_checks, run_checks, h1, h2, h3, h4]

/-- Claim C3: the parcel-geometry and assessment harnesses each assert, in
order: chained valid input with the given credential expects 200; the
malformed coordinate "foobar" (resp. the unrecognized parcel id
"1234567890") expects 400; the credential with "foobar" appended expects
401; and the expected-status lists are exactly [200, 400, 401] — no 404
case is tested for either resolver. -/
theorem C3_parcel_assessment_harness (http : Http) (key wkt pid : String)
    (hw : extract_wkt (http (geocode_request key valid_address)).body = some wkt)
    (hp : extract_parcel_id (http (parcel_geometry_request key "us" wkt)).body = some pid) :
    ((test_get_parcel_data_from_address_coordinates http key).2 = some true ↔
      ((http (parcel_geometry_request key "us" wkt)).status_code = 200 ∧
       (http (parcel_geometry_request key "us" "foobar")).status_code = 400 ∧
       (http (parcel_geometry_request (key ++ "foobar") "us" "foobar")).status_code = 401)) ∧
    ((test_get_assessment_data_from_lbx_parcel_id http key).2 = some true ↔
      ((http (assessment_request key pid)).status_code = 200 ∧
       (http (assessment_request key "1234567890")).status_code = 400 ∧
       (http (assessment_request (key ++ "foobar") "1234567890")).status_code = 401)) ∧
    (parcel_checks key wkt).map Prod.snd = [200, 400, 401] ∧
    (assessment_checks key pid).map Prod.snd = [200, 400, 401] := by
  refine ⟨?_, ?_, rfl, rfl⟩
  · by_cases s1 : (http (parcel_geometry_request key "us" wkt)).status_code = 200 <;>
    by_cases s2 : (http (parcel_geometry_request key "us" "foobar")).status_code = 400 <;>
    by_cases s3 :
      (http (parcel_geometry_request (key ++ "foobar") "us" "foobar")).status_code = 401 <;>
    simp [test_get_parcel_data_from_address_coordinates, hw, parcel_checks, run_checks,
      s1, s2, s3]
  · by_cases s1 : (http (assessment_request key pid)).status_code = 200 <;>
    by_cases s2 : (http (assessment_request key "1234567890")).status_code = 400 <;>
    by_cases s3 :
      (http (assessment_request (key ++ "foobar") "1234567890")).status_code = 401 <;>
    simp [test_get_assessment_data_from_lbx_parcel_id, hw, hp, assessment_checks, run_checks,
      s1, s2, s3]

/-- Witness for C3: on the mock transport the extraction hypotheses hold and
both harnesses pass. -/
theorem C3_parcel_assessment_harness_witness :
    extract_wkt (mock_http (geocode_request lightbox_api_key valid_address)).body =
      some sample_wkt ∧
    extract_parcel_id
      (mock_http (parcel_geometry_request lightbox_api_key "us" sample_wkt)).body =
      some sample_parcel_id ∧
    (test_get_parcel_data_from_address_coordinates mock_http lightbox_api_key).2 = some true ∧
    (test_get_assessment_data_from_lbx_parcel_id mock_http lightbox_api_key).2 = some true := by
  refine ⟨rfl, rfl, ?_, ?_⟩
  · exact (C3_parcel_assessment_harness mock_http lightbox_api_key sample_wkt
      sample_parcel_id rfl rfl).1.mpr ⟨rfl, rfl, rfl⟩
  · exact (C3_parcel_assessment_harness mock_http lightbox_api_key sample_wkt
      sample_parcel_id rfl rfl).2.1.mpr ⟨rfl, rfl, rfl⟩

/-- Claim C7: no stage guards against an empty result list — if the geocode
response's `addresses` list is empty, or the parcel response's `parcels`
list is empty, the pipeline's index-0 extraction fails the program outright
(`none`), with no alternative branch and no distinct not-found outcome. -/
theorem C7_no_empty_guard (http : Http)
    (h : Json.getObj (http (geocode_request lightbox_api_key address)).body "addresses" =
           some (Json.arr []) ∨
         ∃ wkt,
           extract_wkt (http (geocode_request lightbox_api_key address)).body = some wkt ∧
           Json.getObj
             (http (parcel_geometry_request lightbox_api_key country_code wkt)).body
             "parcels" = some (Json.arr [])) :
    (run_pipeline http).2 = none ∧ program_output http = none := by
  have hmain : (run_pipeline http).2 = none := by
    rcases h with h1 | ⟨wkt, hwkt, h2⟩
    · have hE : extract_wkt (http (geocode_request lightbox_api_key address)).body = none := by
        simp [extract_wkt, h1, Json.getIdx]
      unfold run_pipeline geocode_address
      simp [hE]
    · have hP : extract_parcel_id
          (http (parcel_geometry_request lightbox_api_key country_code wkt)).body = none := by
        simp [extract_parcel_id, h2, Json.getIdx]
      unfold run_pipeline geocode_address get_parcel_data_from_address_coordinates
      simp [hwkt, hP]
  exact ⟨hmain, by simp [program_output, hmain]⟩

/-- Witness for C7: on the transport that returns an empty `addresses` list
the pipeline dies before producing anything. -/
theorem C7_no_empty_guard_witness :
    Json.getObj (mock_http_no_match (geocode_request lightbox_api_key address)).body
      "addresses" = some (Json.arr []) ∧
    (run_pipeline mock_http_no_match).2 = none ∧
    program_output mock_http_no_match = none :=
  ⟨rfl, C7_no_empty_guard mock_http_no_match (Or.inl rfl)⟩

/-- Claim C8: the program's only standard output is exactly three JSON
dumps, in pipeline order — the geocode body, the parcel body, the
assessment body — and nothing else is printed or persisted. -/
theorem C8_output_three_dumps (http : Http) (wkt pid : String)
    (hw : extract_wkt (http (geocode_request lightbox_api_key address)).body = some wkt)
    (hp : extract_parcel_id
      (http (parcel_geometry_request lightbox_api_key country_code wkt)).body = some pid) :
    program_output http =
      some [(http (geocode_request lightbox_api_key address)).body,
            (http (parcel_geometry_request lightbox_api_key country_code wkt)).body,
            (http (assessment_request lightbox_api_key pid)).body] := by
  unfold program_output run_pipeline geocode_address get_parcel_data_from_address_coordinates
    get_assessment_data_from_lbx_parcel_id
  simp only [hw, hp]

/-- Witness for C8: on the mock transport the three dumped bodies are the
three stage responses, in order. -/
theorem C8_output_three_dumps_witness :
    extract_wkt (mock_http (geocode_request lightbox_api_key address)).body =
      some sample_wkt ∧
    extract_parcel_id
      (mock_http (parcel_geometry_request lightbox_api_key country_code sample_wkt)).body =
      some sample_parcel_id ∧
    program_output mock_http =
      some [(mock_http (geocode_request lightbox_api_key address)).body,
            (mock_http (parcel_geometry_request lightbox_api_key country_code sample_wkt)).body,
            (mock_http (assessment_request lightbox_api_key sample_parcel_id)).body] :=
  ⟨rfl, rfl, C8_output_three_dumps mock_http sample_wkt sample_parcel_id rfl rfl⟩

/-- Every request a check sequence issues is the request of one of its
checks. -/
theorem run_checks_trace_subset (http : Http) (cs : List (Request × Nat)) :
    ∀ req ∈ (run_checks http cs).1, req ∈ cs.map Prod.fst := by
  induction cs with
  | nil => intro req h; simp [run_checks] at h
  | cons c rest ih =>
    intro req h
    obtain ⟨creq, cexp⟩ := c
    by_cases hc : (http creq).status_code = cexp
    · simp only [run_checks, hc, if_pos] at h
      rcases List.mem_cons.mp h with h | h
      · simp [h]
      · simp only [List.map_cons, List.mem_cons]
        exact Or.inr (ih req h)
    · simp only [run_checks, hc, if_neg, not_false_iff, List.mem_singleton] at h
      simp [h]

/-- Counterexample to C10 as stated: run as shipped (credential ""), the
geocode harness's invalid-credential check issues a request whose
`x-api-key` header is "My-LightBox-Key", not the empty string, so not every
harness request carries an empty key. -/
theorem C10_shipped_key_counterexample :
    geocode_request "My-LightBox-Key" valid_address ∈
      (test_geocode_address_response_status mock_http lightbox_api_key).1 ∧
    (geocode_request "My-LightBox-Key" valid_address).headers ≠ [("x-api-key", "")] := by
  constructor
  · have ht : (test_geocode_address_response_status mock_http lightbox_api_key).1 =
        [geocode_request lightbox_api_key valid_address,
         geocode_request lightbox_api_key "",
         geocode_request "My-LightBox-Key" valid_address,
         geocode_request lightbox_api_key incomplete_address] := rfl
    rw [ht]
    exact List.mem_cons_of_mem _ (List.mem_cons_of_mem _ (List.mem_cons_self _ _))
  · simp [geocode_request]

/-- Claim C10 as amended: the module-level credential is the empty string;
every request of the live pipeline carries an empty `x-api-key` header
value, and every request of the validation harness carries the empty key
except the deliberate invalid-credential checks, whose header value is
"My-LightBox-Key" (geocode harness) or "foobar" (parcel and assessment
harnesses, the empty shipped key with "foobar" appended). -/
theorem C10_amended_empty_key (http : Http) :
    lightbox_api_key = "" ∧
    (∀ req ∈ (run_pipeline http).1, req.headers = [("x-api-key", "")]) ∧
    (∀ req ∈ (test_geocode_address_response_status http lightbox_api_key).1,
      req.headers = [("x-api-key", "")] ∨
      req.headers = [("x-api-key", "My-LightBox-Key")]) ∧
    (∀ req ∈ (test_get_parcel_data_from_address_coordinates http lightbox_api_key).1,
      req.headers = [("x-api-key", "")] ∨ req.headers = [("x-api-key", "foobar")]) ∧
    (∀ req ∈ (test_get_assessment_data_from_lbx_parcel_id http lightbox_api_key).1,
      req.headers = [("x-api-key", "")] ∨ req.headers = [("x-api-key", "foobar")]) := by
  refine ⟨rfl, ?_, ?_, ?_, ?_⟩
  · intro req h
    unfold run_pipeline geocode_address get_parcel_data_from_address_coordinates
      get_assessment_data_from_lbx_parcel_id at h
    rcases hE : extract_wkt (http (geocode_request lightbox_api_key address)).body with _ | wkt
    · simp only [hE, List.mem_singleton] at h
      subst h; rfl
    · rcases hP : extract_parcel_id
          (http (parcel_geometry_request lightbox_api_key country_code wkt)).body with _ | pid
      · simp only [hE, hP, List.cons_append, List.nil_append, List.mem_cons,
          List.not_mem_nil, or_false] at h
        rcases h with h | h <;> (subst h; rfl)
      · simp only [hE, hP, List.cons_append, List.nil_append, List.mem_cons,
          List.not_mem_nil, or_false] at h
        rcases h with h | h | h <;> (subst h; rfl)
  · intro req h
    have h2 := run_checks_trace_subset http (geocode_checks lightbox_api_key) req h
    simp only [geocode_checks, List.map_cons, List.map_nil, List.mem_cons,
      List.not_mem_nil, or_false] at h2
    rcases h2 with h2 | h2 | h2 | h2 <;> subst h2
    · exact Or.inl rfl
    · exact Or.inl rfl
    · exact Or.inr rfl
    · exact Or.inl rfl
  · intro req h
    rcases hE : extract_wkt (http (geocode_request lightbox_api_key valid_address)).body
      with _ | coords
    · simp only [test_get_parcel_data_from_address_coordinates, hE,
        List.mem_singleton] at h
      subst h; exact Or.inl rfl
    · simp only [test_get_parcel_data_from_address_coordinates, hE, List.mem_cons] at h
      rcases h with h | h
      · subst h; exact Or.inl rfl
      · have h2 := run_checks_trace_subset http
          (parcel_checks lightbox_api_key coords) req h
        simp only [parcel_checks, List.map_cons, List.map_nil, List.mem_cons,
          List.not_mem_nil, or_false] at h2
        rcases h2 with h2 | h2 | h2 <;> subst h2
        · exact Or.inl rfl
        · exact Or.inl rfl
        · exact Or.inr rfl
  · intro req h
    rcases hE : extract_wkt (http (geocode_request lightbox_api_key valid_address)).body
      with _ | coords
    · simp only [test_get_assessment_data_from_lbx_parcel_id, hE,
        List.mem_singleton] at h
      subst h; exact Or.inl rfl
    · rcases hP : extract_parcel_id
          (http (parcel_geometry_request lightbox_api_key "us" coords)).body with _ | pid
      · simp only [test_get_assessment_data_from_lbx_parcel_id, hE, hP,
          List.mem_cons, List.not_mem_nil, or_false] at h
        rcases h with h | h <;> (subst h; exact Or.inl rfl)
      · simp only [test_get_assessment_data_from_lbx_parcel_id, hE, hP,
          List.mem_cons] at h
        rcases h with h | h | h
        · subst h; exact Or.inl rfl
        · subst h; exact Or.inl rfl
        · have h2 := run_checks_trace_subset http
            (assessment_checks lightbox_api_key pid) req h
          simp only [assessment_checks, List.map_cons, List.map_nil, List.mem_cons,
            List.not_mem_nil, or_false] at h2
          rcases h2 with h2 | h2 | h2 <;> subst h2
          · exact Or.inl rfl
          · exact Or.inl rfl
          · exact Or.inr rfl

/-- Witness for the amended C10: on the mock transport the pipeline's first
request indeed carries the empty `x-api-key` value. -/
theorem C10_amended_empty_key_witness :
    lightbox_api_key = "" ∧
    (geocode_request lightbox_api_key address).headers = [("x-api-key", "")] := by
  have h := C10_amended_empty_key mock_http
  refine ⟨h.1, h.2.1 (geocode_request lightbox_api_key address) ?_⟩
  have ht : (run_pipeline mock_http).1 =
      [geocode_request lightbox_api_key address,
       parcel_geometry_request lightbox_api_key country_code sample_wkt,
       assessment_request lightbox_api_key sample_parcel_id] := rfl
  rw [ht]
  exact List.mem_cons_self _ _
